import Mathlib

/-!
Verification of the resource-graph resolution logic of
`kubernetes_info_fetcher_py` (`src/main.py`).

The embedding translates the pure in-memory filtering of
`fetch_resources_for_workload` (the "Ownership Resolver"), the Mermaid
rendering helpers (`generate_node`, `generate_link`, `generate_markdown`),
the degrade-to-empty query wrappers (`fetch_namespaces`,
`fetch_all_workloads`, `fetch_pods_for_workload`,
`fetch_services_for_workload`) and the file-writing loop of `main_async`.

Python `None` values for `metadata.labels`, `metadata.owner_references`
and `spec.selector` are modelled with `Option`; places where the Python
code would raise (iterating `None`, calling `.items()` on `None`) are
modelled as `Except.error`, with the left-to-right, short-circuit
evaluation order of the source preserved.
-/

/-- An entry of `metadata.owner_references`: only the `uid` field is read. -/
structure OwnerRef where
  uid : String
deriving DecidableEq, Repr

/-- A Pod object. `labels` and `owner_references` are `none` when the
Kubernetes API returns `None` for them. -/
structure Pod where
  name : String
  uid : String
  labels : Option (List (String × String))
  owner_references : Option (List OwnerRef)
deriving DecidableEq, Repr

/-- A ReplicaSet object; only `metadata` fields are read. -/
structure ReplicaSet where
  name : String
  uid : String
  owner_references : Option (List OwnerRef)
deriving DecidableEq, Repr

/-- A Service object; `selector` is `spec.selector` (`none` when absent). -/
structure Service where
  name : String
  selector : Option (List (String × String))
deriving DecidableEq, Repr

/-- A workload object. `kind` is the Python runtime class name
(`type(workload).__name__`), e.g. `"V1Deployment"`. -/
structure Workload where
  kind : String
  name : String
  uid : String
  ns : String
deriving DecidableEq, Repr

/-- Output of the Resolver: the dictionary built at `src/main.py:124-128`. -/
structure ResolvedGraph where
  replica_sets : List ReplicaSet
  pods : List Pod
  services : List Service
deriving DecidableEq, Repr

/-- A Python list comprehension `[a for a in l if test(a)]` whose test may
raise: elements are examined left to right and the first raise aborts the
whole comprehension. -/
def exceptFilter {α : Type} (test : α → Except String Bool) : List α → Except String (List α)
  | [] => .ok []
  | a :: rest =>
    match test a with
    | .error e => .error e
    | .ok b =>
      match exceptFilter test rest with
      | .error e => .error e
      | .ok tail => .ok (if b then a :: tail else tail)

/-- The per-ReplicaSet test of `src/main.py:111-112`:
`any(owner.uid == workload.metadata.uid for owner in
rs.metadata.owner_references)`.  Iterating a `None` `owner_references`
raises `TypeError` in Python, modelled as `.error`. -/
def rsOwnerTest (uid : String) (rs : ReplicaSet) : Except String Bool :=
  match rs.owner_references with
  | none => .error "TypeError: NoneType object is not iterable"
  | some refs => .ok (refs.any (fun o => o.uid == uid))

/-- `src/main.py:111-112`: the Deployment-branch ReplicaSet comprehension. -/
def filterOwnedRS (uid : String) (rss : List ReplicaSet) : Except String (List ReplicaSet) :=
  exceptFilter (rsOwnerTest uid) rss

/-- The per-Pod test of `src/main.py:113-114`:
`any(owner.uid == rs.metadata.uid for rs in owned_replica_sets
for owner in pod.metadata.owner_references)`.  When `owned_replica_sets`
is empty the generator never touches `pod.metadata.owner_references`
(so a `None` value does not raise); otherwise iterating `None` raises. -/
def deployPodOwned (ownedRS : List ReplicaSet) (p : Pod) : Except String Bool :=
  if ownedRS.isEmpty then .ok false
  else match p.owner_references with
    | none => .error "TypeError: NoneType object is not iterable"
    | some refs => .ok (ownedRS.any (fun rs => refs.any (fun o => o.uid == rs.uid)))

/-- `src/main.py:113-114`: the Deployment-branch Pod comprehension. -/
def filterDeployPods (ownedRS : List ReplicaSet) (pods : List Pod) : Except String (List Pod) :=
  exceptFilter (deployPodOwned ownedRS) pods

/-- `src/main.py:116-117`: the single-hop test
`pod.metadata.owner_references and any(owner.uid == workload.metadata.uid
for owner in pod.metadata.owner_references)`.  Python truthiness: a `None`
or empty list short-circuits to falsy, so no error is possible here. -/
def singleHopOwned (uid : String) (p : Pod) : Bool :=
  match p.owner_references with
  | none => false
  | some refs => !refs.isEmpty && refs.any (fun o => o.uid == uid)

/-- `src/main.py:119`: `not pod.metadata.owner_references` — truthy for a
`None` or empty owner list. -/
def standalonePod (p : Pod) : Bool :=
  match p.owner_references with
  | none => true
  | some refs => refs.isEmpty

/-- The inner test of `src/main.py:122`:
`all(item in pod.metadata.labels.items() for item in
service.spec.selector.items())`.  `all` over an empty selector is `True`
without touching the labels; a non-empty selector forces
`pod.metadata.labels.items()`, which raises `AttributeError` on `None`. -/
def podMatchesSelector (sel : List (String × String)) (p : Pod) : Except String Bool :=
  if sel.isEmpty then .ok true
  else match p.labels with
    | none => .error "AttributeError: NoneType object has no attribute items"
    | some lbls => .ok (sel.all (fun kv => decide (kv ∈ lbls)))

/-- `src/main.py:121-122`: `any(... for pod in owned_pods)` — stops at the
first matching Pod, so Pods after a match are never examined. -/
def serviceSelects (sel : List (String × String)) : List Pod → Except String Bool
  | [] => .ok false
  | p :: rest =>
    match podMatchesSelector sel p with
    | .error e => .error e
    | .ok true => .ok true
    | .ok false => serviceSelects sel rest

/-- The per-Service test of `src/main.py:121-122`:
`service.spec.selector and any(...)` — a `None` or empty selector is
falsy and short-circuits. -/
def serviceKeep (ownedPods : List Pod) (s : Service) : Except String Bool :=
  match s.selector with
  | none => .ok false
  | some sel => if sel.isEmpty then .ok false else serviceSelects sel ownedPods

/-- `src/main.py:121-122`: the Service comprehension. -/
def filterServices (ownedPods : List Pod) (services : List Service) :
    Except String (List Service) :=
  exceptFilter (serviceKeep ownedPods) services

/-- The `owned_pods` assignment of the two non-Deployment branches
(`src/main.py:115-119`): single-hop matching for StatefulSet, DaemonSet
and ReplicaSet workloads, owner-less Pods otherwise. -/
def nonDeployPods (w : Workload) (pods : List Pod) : List Pod :=
  if w.kind == "V1StatefulSet" || w.kind == "V1DaemonSet" || w.kind == "V1ReplicaSet"
    then pods.filter (singleHopOwned w.uid)
    else pods.filter standalonePod

/-- The Ownership Resolver: the pure filtering part of
`fetch_resources_for_workload` (`src/main.py:99-128`), taking the
already-fetched namespace-wide Pod, Service and ReplicaSet lists. -/
def resolve (w : Workload) (pods : List Pod) (services : List Service)
    (replica_sets : List ReplicaSet) : Except String ResolvedGraph :=
  if w.kind == "V1Deployment" then
    match filterOwnedRS w.uid replica_sets with
    | .error e => .error e
    | .ok ownedRS =>
      match filterDeployPods ownedRS pods with
      | .error e => .error e
      | .ok ownedPods =>
        match filterServices ownedPods services with
        | .error e => .error e
        | .ok svcs => .ok ⟨ownedRS, ownedPods, svcs⟩
  else
    match filterServices (nonDeployPods w pods) services with
    | .error e => .error e
    | .ok svcs => .ok ⟨[], nonDeployPods w pods, svcs⟩

/-! ### Mermaid rendering (`generate_node`, `generate_link`, `generate_markdown`) -/

/-- Python `str.lower()`, modelled character-wise. -/
def pyLower (s : String) : String := ⟨s.data.map Char.toLower⟩

/-- The Mermaid node identifier of `src/main.py:347` and `src/main.py:365-366`:
`f"{name}_{kind.lower()}"`. -/
def node_id (kind name : String) : String := name ++ ("_" ++ pyLower kind)

/-- `src/main.py:336-349` (`generate_node`): `f"{node_id}[{label}]"` with
`label = f"{kind}: {name}" if kind not in ["Pod"] else name`. -/
def generate_node (kind name : String) : String :=
  node_id kind name ++ "[" ++ (if kind == "Pod" then name else kind ++ ": " ++ name) ++ "]"

/-- `src/main.py:352-367` (`generate_link`): `f"{source_id} --> {target_id}"`. -/
def generate_link (source_kind source_name target_kind target_name : String) : String :=
  node_id source_kind source_name ++ " --> " ++ node_id target_kind target_name

/-- The Service→Pod edge guard of `src/main.py:215-216`:
`service.spec.selector and all(item in pod.metadata.labels.items() for item
in service.spec.selector.items())` — a `None`/empty selector is falsy and
short-circuits; a non-empty selector forces the labels of the Pod. -/
def service_pod_edge_guard (s : Service) (p : Pod) : Except String Bool :=
  match s.selector with
  | none => .ok false
  | some sel => if sel.isEmpty then .ok false else podMatchesSelector sel p

/-- `src/main.py:213-217`: the inner Pod loop of `generate_markdown` for one
Service, collecting the emitted Service→Pod edge lines in order. -/
def service_links (s : Service) : List Pod → Except String (List String)
  | [] => .ok []
  | p :: rest =>
    match service_pod_edge_guard s p with
    | .error e => .error e
    | .ok b =>
      match service_links s rest with
      | .error e => .error e
      | .ok tail => .ok (if b then generate_link "Service" s.name "Pod" p.name :: tail else tail)

/-- `src/main.py:210-217`: the Service loop of `generate_markdown`: one node
line per Service followed by its edge lines. -/
def services_blocks (pods : List Pod) : List Service → Except String (List String)
  | [] => .ok []
  | s :: rest =>
    match service_links s pods with
    | .error e => .error e
    | .ok links =>
      match services_blocks pods rest with
      | .error e => .error e
      | .ok tail => .ok (generate_node "Service" s.name :: (links ++ tail))

/-- `src/main.py:184-219` (`generate_markdown`): the `graph_def` list of
Mermaid lines (the final step of the source joins them inside a fenced
code block, which does not affect which nodes and edges are emitted). -/
def generate_markdown_lines (w : Workload) (pods : List Pod) (services : List Service) :
    Except String (List String) :=
  match services_blocks pods services with
  | .error e => .error e
  | .ok svcLines =>
    .ok (["graph TD", generate_node w.kind w.name] ++
      pods.flatMap (fun p =>
        [generate_node "Pod" p.name, generate_link w.kind w.name "Pod" p.name]) ++
      svcLines)

/-- The resource kinds that ever reach `generate_node`: the three workload
class names returned by `fetch_all_workloads`, plus `"Pod"` and
`"Service"` used literally in `generate_markdown`. -/
def renderedKinds : List String :=
  ["V1Deployment", "V1StatefulSet", "V1DaemonSet", "Pod", "Service"]

/-! ### Query wrappers and the driver -/

/-- `src/main.py:15-27` (`fetch_namespaces`): the outcome of the list call is a
parameter; an exception is caught, logged and turned into `[]`. -/
def fetch_namespaces (q : Except String (List String)) : List String :=
  match q with
  | .ok items => items
  | .error _ => []

/-- `src/main.py:30-48` (`fetch_all_workloads`): three list calls inside one
`try`; an exception in any of them empties the whole result. -/
def fetch_all_workloads (qDeploy qStateful qDaemon : Except String (List Workload)) :
    List Workload :=
  match qDeploy, qStateful, qDaemon with
  | .ok ds, .ok ss, .ok dss => ds ++ ss ++ dss
  | _, _, _ => []

/-- `src/main.py:51-67` (`fetch_pods_for_workload`): degrade-to-empty. -/
def fetch_pods_for_workload (q : Except String (List Pod)) : List Pod :=
  match q with
  | .ok items => items
  | .error _ => []

/-- `src/main.py:70-86` (`fetch_services_for_workload`): degrade-to-empty. -/
def fetch_services_for_workload (q : Except String (List Service)) : List Service :=
  match q with
  | .ok items => items
  | .error _ => []

/-- `src/main.py:89-128` (`fetch_resources_for_workload`): fetch, then the
resolver.  The Pod and Service lists come through the guarded fetch
functions, but the ReplicaSet list call at `src/main.py:107-108` is not
inside any `try`/`except`, so its failure propagates to the caller. -/
def fetch_resources_for_workload (w : Workload) (podsQ : Except String (List Pod))
    (servicesQ : Except String (List Service)) (rsQ : Except String (List ReplicaSet)) :
    Except String ResolvedGraph :=
  match rsQ with
  | .error e => .error e
  | .ok replica_sets =>
      resolve w (fetch_pods_for_workload podsQ) (fetch_services_for_workload servicesQ)
        replica_sets

/-- `src/main.py:370-390` (`main_async`): the paths of the files written,
given the fetched namespaces with their workload lists.  The loop writes
`output_{current_context}/{namespace}_{workload_name}_metadata.md` for each
workload that is a `V1Deployment` (`isinstance(workload, client.V1Deployment)`)
and writes nothing for any other workload. -/
def main_async_writes (current_context : String)
    (cluster : List (String × List Workload)) : List String :=
  cluster.flatMap (fun nsw =>
    (nsw.2.filter (fun w => w.kind == "V1Deployment")).map
      (fun w => "output_" ++ current_context ++ "/" ++ (nsw.1 ++ "_" ++ w.name ++ "_metadata.md")))

/-! ### Concrete objects used to evaluate the theorems on closed inputs -/

/-- A Deployment workload with uid `D1`. -/
def wDep : Workload := ⟨"V1Deployment", "web", "D1", "default"⟩

/-- A StatefulSet workload with uid `S1`. -/
def wSts : Workload := ⟨"V1StatefulSet", "db", "S1", "default"⟩

/-- A bare-Pod workload (class name `V1Pod` is none of the recognized kinds). -/
def wBare : Workload := ⟨"V1Pod", "job", "B1", "default"⟩

/-- ReplicaSet owned by the Deployment `D1`. -/
def rsOwned : ReplicaSet := ⟨"web-rs1", "R1", some [⟨"D1"⟩]⟩

/-- ReplicaSet owned by an unrelated controller. -/
def rsOther : ReplicaSet := ⟨"web-rs2", "R2", some [⟨"X"⟩]⟩

/-- Pod owned by ReplicaSet `R1`, labelled `app=web`. -/
def podA : Pod := ⟨"web-pod1", "P1", some [("app", "web"), ("env", "prod")], some [⟨"R1"⟩]⟩

/-- Pod owned by ReplicaSet `R2`. -/
def podB : Pod := ⟨"web-pod2", "P2", some [("app", "other")], some [⟨"R2"⟩]⟩

/-- Pod owned directly by the StatefulSet `S1`. -/
def podC : Pod := ⟨"db-pod0", "P3", some [("app", "db")], some [⟨"S1"⟩]⟩

/-- Owner-less Pod. -/
def podFree : Pod := ⟨"solo-pod", "P4", some [("app", "solo")], some []⟩

/-- Pod whose labels mapping is Python `None`. -/
def podNullLabels : Pod := ⟨"null-pod", "P5", none, none⟩

/-- Service selecting `app=web`. -/
def svcWeb : Service := ⟨"web-svc", some [("app", "web")]⟩

/-- Service with an empty selector. -/
def svcEmptySel : Service := ⟨"empty-svc", some []⟩

/-! ### Boolean characterizations of the comprehension predicates -/

/-- A ReplicaSet carries an owner link with the given `uid`. -/
def rsOwnedBy (uid : String) (rs : ReplicaSet) : Bool :=
  (rs.owner_references.getD []).any (fun o => o.uid == uid)

/-- A Pod carries an owner link to some ReplicaSet of `ownedRS`. -/
def podDeployOwned (ownedRS : List ReplicaSet) (p : Pod) : Bool :=
  ownedRS.any (fun rs => (p.owner_references.getD []).any (fun o => o.uid == rs.uid))

/-- Every selector pair occurs among the labels of the Pod. -/
def selMatches (sel : List (String × String)) (p : Pod) : Bool :=
  sel.all (fun kv => decide (kv ∈ p.labels.getD []))

/-- The Service-selection predicate: non-empty selector matched by some owned Pod. -/
def svcKeepB (ownedPods : List Pod) (s : Service) : Bool :=
  match s.selector with
  | none => false
  | some sel => !sel.isEmpty && ownedPods.any (selMatches sel)

lemma exceptFilter_eq_ok {α : Type} (test : α → Except String Bool) (f : α → Bool)
    (l : List α) (h : ∀ a ∈ l, test a = .ok (f a)) :
    exceptFilter test l = .ok (l.filter f) := by
  induction l with
  | nil => rfl
  | cons a rest ih =>
    have ha := h a (List.mem_cons_self a rest)
    have ihh := ih (fun x hx => h x (List.mem_cons_of_mem a hx))
    simp [exceptFilter, ha, ihh, List.filter_cons]

lemma exceptFilter_sub {α : Type} (test : α → Except String Bool) (l : List α) :
    ∀ r, exceptFilter test l = .ok r → ∀ x ∈ r, x ∈ l := by
  induction l with
  | nil =>
    intro r h x hx
    cases h
    simp at hx
  | cons a rest ih =>
    intro r h x hx
    unfold exceptFilter at h
    cases ht : test a with
    | error e => rw [ht] at h; cases h
    | ok b =>
      rw [ht] at h
      cases hrec : exceptFilter test rest with
      | error e => rw [hrec] at h; cases h
      | ok tail =>
        rw [hrec] at h
        cases h
        cases b with
        | false =>
          simp only [if_neg Bool.false_ne_true] at hx
          exact List.mem_cons_of_mem a (ih tail hrec x hx)
        | true =>
          simp only [if_pos rfl] at hx
          rcases List.mem_cons.mp hx with h1 | h1
          · exact h1 ▸ List.mem_cons_self a rest
          · exact List.mem_cons_of_mem a (ih tail hrec x h1)

lemma rsOwnerTest_eq_ok (uid : String) (rs : ReplicaSet)
    (h : rs.owner_references.isSome = true) :
    rsOwnerTest uid rs = .ok (rsOwnedBy uid rs) := by
  cases hro : rs.owner_references with
  | none => simp [hro] at h
  | some refs => simp [rsOwnerTest, rsOwnedBy, hro]

lemma deployPodOwned_eq_ok (ownedRS : List ReplicaSet) (p : Pod)
    (h : p.owner_references.isSome = true) :
    deployPodOwned ownedRS p = .ok (podDeployOwned ownedRS p) := by
  cases hpo : p.owner_references with
  | none => simp [hpo] at h
  | some refs =>
    cases hors : ownedRS.isEmpty with
    | true =>
      have hnil : ownedRS = [] := List.isEmpty_iff.mp hors
      subst hnil
      simp [deployPodOwned, podDeployOwned]
    | false => simp [deployPodOwned, podDeployOwned, hors, hpo]

lemma filterOwnedRS_eq_ok (uid : String) (rss : List ReplicaSet)
    (h : ∀ rs ∈ rss, rs.owner_references.isSome = true) :
    filterOwnedRS uid rss = .ok (rss.filter (rsOwnedBy uid)) :=
  exceptFilter_eq_ok _ _ rss (fun rs hrs => rsOwnerTest_eq_ok uid rs (h rs hrs))

lemma filterDeployPods_eq_ok (ownedRS : List ReplicaSet) (pods : List Pod)
    (h : ∀ p ∈ pods, p.owner_references.isSome = true) :
    filterDeployPods ownedRS pods = .ok (pods.filter (podDeployOwned ownedRS)) :=
  exceptFilter_eq_ok _ _ pods (fun p hp => deployPodOwned_eq_ok ownedRS p (h p hp))

lemma serviceSelects_eq_ok (sel : List (String × String)) (pods : List Pod)
    (h : ∀ p ∈ pods, p.labels.isSome = true) :
    serviceSelects sel pods = .ok (pods.any (selMatches sel)) := by
  induction pods with
  | nil => rfl
  | cons p rest ih =>
    have hp := h p (List.mem_cons_self p rest)
    have ihh := ih (fun x hx => h x (List.mem_cons_of_mem p hx))
    cases hsel : sel.isEmpty with
    | true =>
      have hnil : sel = [] := List.isEmpty_iff.mp hsel
      simp [serviceSelects, podMatchesSelector, hnil, selMatches, List.any_cons]
    | false =>
      cases hl : p.labels with
      | none => simp [hl] at hp
      | some lbls =>
        cases hb : sel.all (fun kv => decide (kv ∈ lbls)) with
        | true =>
          simp [serviceSelects, podMatchesSelector, hsel, hl, hb, selMatches, List.any_cons]
        | false =>
          simp [serviceSelects, podMatchesSelector, hsel, hl, hb, ihh, selMatches,
            List.any_cons]

lemma serviceKeep_eq_ok (pods : List Pod) (s : Service)
    (h : ∀ p ∈ pods, p.labels.isSome = true) :
    serviceKeep pods s = .ok (svcKeepB pods s) := by
  cases hs : s.selector with
  | none => simp [serviceKeep, svcKeepB, hs]
  | some sel =>
    cases hsel : sel.isEmpty with
    | true => simp [serviceKeep, svcKeepB, hs, hsel]
    | false => simp [serviceKeep, svcKeepB, hs, hsel, serviceSelects_eq_ok sel pods h]

lemma filterServices_eq_ok (pods : List Pod) (services : List Service)
    (h : ∀ p ∈ pods, p.labels.isSome = true) :
    filterServices pods services = .ok (services.filter (svcKeepB pods)) :=
  exceptFilter_eq_ok _ _ services (fun s _ => serviceKeep_eq_ok pods s h)

/-! ### Per-branch equations for `resolve` -/

lemma resolve_deployment_eq (w : Workload) (pods : List Pod) (services : List Service)
    (rss : List ReplicaSet) (hk : w.kind = "V1Deployment")
    (hrs : ∀ rs ∈ rss, rs.owner_references.isSome = true)
    (hp : ∀ p ∈ pods, p.owner_references.isSome = true)
    (hl : ∀ p ∈ pods, p.labels.isSome = true) :
    resolve w pods services rss =
      .ok ⟨rss.filter (rsOwnedBy w.uid),
           pods.filter (podDeployOwned (rss.filter (rsOwnedBy w.uid))),
           services.filter
             (svcKeepB (pods.filter (podDeployOwned (rss.filter (rsOwnedBy w.uid)))))⟩ := by
  have h1 := filterOwnedRS_eq_ok w.uid rss hrs
  have h2 := filterDeployPods_eq_ok (rss.filter (rsOwnedBy w.uid)) pods hp
  have h3 := filterServices_eq_ok (pods.filter (podDeployOwned (rss.filter (rsOwnedBy w.uid))))
    services (fun p hmem => hl p (List.mem_of_mem_filter hmem))
  simp [resolve, hk, h1, h2, h3]

lemma resolve_singlehop_eq (w : Workload) (pods : List Pod) (services : List Service)
    (rss : List ReplicaSet)
    (hk : w.kind = "V1StatefulSet" ∨ w.kind = "V1DaemonSet" ∨ w.kind = "V1ReplicaSet")
    (hl : ∀ p ∈ pods, p.labels.isSome = true) :
    resolve w pods services rss =
      .ok ⟨[], pods.filter (singleHopOwned w.uid),
           services.filter (svcKeepB (pods.filter (singleHopOwned w.uid)))⟩ := by
  have h3 := filterServices_eq_ok (pods.filter (singleHopOwned w.uid)) services
    (fun p hmem => hl p (List.mem_of_mem_filter hmem))
  rcases hk with hk | hk | hk <;> simp [resolve, nonDeployPods, hk, h3]

lemma resolve_standalone_eq (w : Workload) (pods : List Pod) (services : List Service)
    (rss : List ReplicaSet)
    (hk1 : w.kind ≠ "V1Deployment") (hk2 : w.kind ≠ "V1StatefulSet")
    (hk3 : w.kind ≠ "V1DaemonSet") (hk4 : w.kind ≠ "V1ReplicaSet")
    (hl : ∀ p ∈ pods, p.labels.isSome = true) :
    resolve w pods services rss =
      .ok ⟨[], pods.filter standalonePod,
           services.filter (svcKeepB (pods.filter standalonePod))⟩ := by
  have h3 := filterServices_eq_ok (pods.filter standalonePod) services
    (fun p hmem => hl p (List.mem_of_mem_filter hmem))
  simp [resolve, nonDeployPods, beq_iff_eq, hk1, hk2, hk3, hk4, h3]

/-! ### From Boolean predicates to propositions -/

lemma rsOwnedBy_iff (uid : String) (rs : ReplicaSet) :
    rsOwnedBy uid rs = true ↔ ∃ o ∈ rs.owner_references.getD [], o.uid = uid := by
  simp [rsOwnedBy]

lemma podDeployOwned_iff (ownedRS : List ReplicaSet) (p : Pod) :
    podDeployOwned ownedRS p = true ↔
      ∃ rs ∈ ownedRS, ∃ o ∈ p.owner_references.getD [], o.uid = rs.uid := by
  simp [podDeployOwned]

lemma singleHopOwned_iff (uid : String) (p : Pod) :
    singleHopOwned uid p = true ↔
      p.owner_references.getD [] ≠ [] ∧ ∃ o ∈ p.owner_references.getD [], o.uid = uid := by
  cases hpo : p.owner_references with
  | none => simp [singleHopOwned, hpo]
  | some refs => simp [singleHopOwned, hpo, List.isEmpty_iff]

lemma standalonePod_iff (p : Pod) :
    standalonePod p = true ↔ p.owner_references.getD [] = [] := by
  cases hpo : p.owner_references with
  | none => simp [standalonePod, hpo]
  | some refs => simp [standalonePod, hpo, List.isEmpty_iff]

lemma selMatches_iff (sel : List (String × String)) (p : Pod) :
    selMatches sel p = true ↔ ∀ kv ∈ sel, kv ∈ p.labels.getD [] := by
  simp [selMatches]

lemma svcKeepB_iff (ownedPods : List Pod) (s : Service) :
    svcKeepB ownedPods s = true ↔
      ∃ sel, s.selector = some sel ∧ sel ≠ [] ∧
        ∃ p ∈ ownedPods, ∀ kv ∈ sel, kv ∈ p.labels.getD [] := by
  cases hs : s.selector with
  | none => simp [svcKeepB, hs]
  | some sel => simp [svcKeepB, hs, List.isEmpty_iff, selMatches_iff]

lemma resolve_ok_structure (w : Workload) (pods : List Pod) (services : List Service)
    (rss : List ReplicaSet)
    (hrs : ∀ rs ∈ rss, rs.owner_references.isSome = true)
    (hp : ∀ p ∈ pods, p.owner_references.isSome = true)
    (hl : ∀ p ∈ pods, p.labels.isSome = true) :
    ∃ ownedRS ownedPods, (∀ p ∈ ownedPods, p ∈ pods) ∧
      resolve w pods services rss =
        .ok ⟨ownedRS, ownedPods, services.filter (svcKeepB ownedPods)⟩ := by
  by_cases hk1 : w.kind = "V1Deployment"
  · exact ⟨_, _, fun p h => List.mem_of_mem_filter h,
      resolve_deployment_eq w pods services rss hk1 hrs hp hl⟩
  · by_cases hk2 : w.kind = "V1StatefulSet"
    · exact ⟨_, _, fun p h => List.mem_of_mem_filter h,
        resolve_singlehop_eq w pods services rss (Or.inl hk2) hl⟩
    · by_cases hk3 : w.kind = "V1DaemonSet"
      · exact ⟨_, _, fun p h => List.mem_of_mem_filter h,
          resolve_singlehop_eq w pods services rss (Or.inr (Or.inl hk3)) hl⟩
      · by_cases hk4 : w.kind = "V1ReplicaSet"
        · exact ⟨_, _, fun p h => List.mem_of_mem_filter h,
            resolve_singlehop_eq w pods services rss (Or.inr (Or.inr hk4)) hl⟩
        · exact ⟨_, _, fun p h => List.mem_of_mem_filter h,
            resolve_standalone_eq w pods services rss hk1 hk2 hk3 hk4 hl⟩

/-! ### Claim theorems -/

/-- C1: For a Deployment workload and unfiltered namespace lists of Pods and
ReplicaSets (with owner lists and labels present), `resolve` returns
`ownedReplicaSets` = exactly the ReplicaSets owning a link with the
uid of the Deployment, `ownedPods` = exactly the Pods linking to some owned
ReplicaSet (two-hop resolution), and a Pod with no link to any owned
ReplicaSet and no direct link to the Deployment is never in `ownedPods`. -/
theorem deployment_two_hop_resolution (w : Workload) (pods : List Pod)
    (services : List Service) (rss : List ReplicaSet)
    (hk : w.kind = "V1Deployment")
    (hrs : ∀ rs ∈ rss, rs.owner_references.isSome = true)
    (hp : ∀ p ∈ pods, p.owner_references.isSome = true)
    (hl : ∀ p ∈ pods, p.labels.isSome = true) :
    ∃ g, resolve w pods services rss = .ok g ∧
      (∀ rs, rs ∈ g.replica_sets ↔
        rs ∈ rss ∧ ∃ o ∈ rs.owner_references.getD [], o.uid = w.uid) ∧
      (∀ p, p ∈ g.pods ↔
        p ∈ pods ∧ ∃ rs ∈ g.replica_sets, ∃ o ∈ p.owner_references.getD [], o.uid = rs.uid) ∧
      (∀ p ∈ pods,
        (∀ o ∈ p.owner_references.getD [],
          (∀ rs ∈ g.replica_sets, o.uid ≠ rs.uid) ∧ o.uid ≠ w.uid) → p ∉ g.pods) := by
  refine ⟨_, resolve_deployment_eq w pods services rss hk hrs hp hl, ?_, ?_, ?_⟩
  · intro rs
    simp [List.mem_filter, rsOwnedBy_iff]
  · intro p
    simp [List.mem_filter, podDeployOwned_iff]
  · intro p _ hno hcon
    rw [List.mem_filter] at hcon
    obtain ⟨rs, hrsmem, o, homem, huid⟩ := (podDeployOwned_iff _ p).mp hcon.2
    exact (hno o homem).1 rs hrsmem huid

/-- Witness for C1 at Scenario 1 of the spec (`D1`, owned `R1`, foreign `R2`,
Pods `P1 → R1` and `P2 → R2`). -/
theorem deployment_two_hop_resolution_witness :
    ∃ g, resolve wDep [podA, podB] [svcWeb] [rsOwned, rsOther] = .ok g ∧
      (∀ rs, rs ∈ g.replica_sets ↔
        rs ∈ [rsOwned, rsOther] ∧ ∃ o ∈ rs.owner_references.getD [], o.uid = wDep.uid) ∧
      (∀ p, p ∈ g.pods ↔
        p ∈ [podA, podB] ∧
          ∃ rs ∈ g.replica_sets, ∃ o ∈ p.owner_references.getD [], o.uid = rs.uid) ∧
      (∀ p ∈ [podA, podB],
        (∀ o ∈ p.owner_references.getD [],
          (∀ rs ∈ g.replica_sets, o.uid ≠ rs.uid) ∧ o.uid ≠ wDep.uid) → p ∉ g.pods) :=
  deployment_two_hop_resolution wDep [podA, podB] [svcWeb] [rsOwned, rsOther]
    (by decide) (by decide) (by decide) (by decide)

/-- C2: For a StatefulSet, DaemonSet or ReplicaSet workload, `resolve`
returns `ownedPods` = exactly the Pods whose owner list is non-empty and
contains a link with the uid of the workload, and empty `ownedReplicaSets`. -/
theorem single_hop_resolution (w : Workload) (pods : List Pod)
    (services : List Service) (rss : List ReplicaSet)
    (hk : w.kind = "V1StatefulSet" ∨ w.kind = "V1DaemonSet" ∨ w.kind = "V1ReplicaSet")
    (hl : ∀ p ∈ pods, p.labels.isSome = true) :
    ∃ g, resolve w pods services rss = .ok g ∧ g.replica_sets = [] ∧
      ∀ p, p ∈ g.pods ↔
        p ∈ pods ∧ p.owner_references.getD [] ≠ [] ∧
          ∃ o ∈ p.owner_references.getD [], o.uid = w.uid := by
  refine ⟨_, resolve_singlehop_eq w pods services rss hk hl, rfl, ?_⟩
  intro p
  simp [List.mem_filter, singleHopOwned_iff]

/-- Witness for C2: StatefulSet `S1` owns `podC` but not the owner-less
`podFree` nor the ReplicaSet-owned `podA`. -/
theorem single_hop_resolution_witness :
    ∃ g, resolve wSts [podA, podC, podFree] [svcWeb] [] = .ok g ∧ g.replica_sets = [] ∧
      ∀ p, p ∈ g.pods ↔
        p ∈ [podA, podC, podFree] ∧ p.owner_references.getD [] ≠ [] ∧
          ∃ o ∈ p.owner_references.getD [], o.uid = wSts.uid :=
  single_hop_resolution wSts [podA, podC, podFree] [svcWeb] []
    (Or.inl (by decide)) (by decide)

/-- C4: For a workload of unrecognized kind (bare Pod), `resolve` returns
`ownedPods` = all owner-less Pods of the namespace, and every standalone
workload over the same namespace lists yields that same `ownedPods`. -/
theorem standalone_resolution (w : Workload) (pods : List Pod)
    (services : List Service) (rss : List ReplicaSet)
    (hk1 : w.kind ≠ "V1Deployment") (hk2 : w.kind ≠ "V1StatefulSet")
    (hk3 : w.kind ≠ "V1DaemonSet") (hk4 : w.kind ≠ "V1ReplicaSet")
    (hl : ∀ p ∈ pods, p.labels.isSome = true) :
    ∃ g, resolve w pods services rss = .ok g ∧
      (∀ p, p ∈ g.pods ↔ p ∈ pods ∧ p.owner_references.getD [] = []) ∧
      (∀ w2 : Workload, w2.kind ≠ "V1Deployment" → w2.kind ≠ "V1StatefulSet" →
        w2.kind ≠ "V1DaemonSet" → w2.kind ≠ "V1ReplicaSet" →
        ∃ g2, resolve w2 pods services rss = .ok g2 ∧ g2.pods = g.pods) := by
  refine ⟨_, resolve_standalone_eq w pods services rss hk1 hk2 hk3 hk4 hl, ?_, ?_⟩
  · intro p
    simp [List.mem_filter, standalonePod_iff]
  · intro w2 h1 h2 h3 h4
    exact ⟨_, resolve_standalone_eq w2 pods services rss h1 h2 h3 h4 hl, rfl⟩

/-- Witness for C4 at Scenario 4 of the spec: only the owner-less Pod
appears, and a second standalone workload gets the same set. -/
theorem standalone_resolution_witness :
    ∃ g, resolve wBare [podA, podFree] [svcWeb] [] = .ok g ∧
      (∀ p, p ∈ g.pods ↔ p ∈ [podA, podFree] ∧ p.owner_references.getD [] = []) ∧
      (∀ w2 : Workload, w2.kind ≠ "V1Deployment" → w2.kind ≠ "V1StatefulSet" →
        w2.kind ≠ "V1DaemonSet" → w2.kind ≠ "V1ReplicaSet" →
        ∃ g2, resolve w2 [podA, podFree] [svcWeb] [] = .ok g2 ∧ g2.pods = g.pods) :=
  standalone_resolution wBare [podA, podFree] [svcWeb] []
    (by decide) (by decide) (by decide) (by decide) (by decide)

/-- C3: For any workload kind over well-formed inputs, `resolve` returns
`selectingServices` = exactly the Services with a non-empty selector for
which the labels of some owned Pod contain every selector pair; a Service with
an empty or absent selector is never selected. -/
theorem service_selection_exact (w : Workload) (pods : List Pod)
    (services : List Service) (rss : List ReplicaSet)
    (hrs : ∀ rs ∈ rss, rs.owner_references.isSome = true)
    (hp : ∀ p ∈ pods, p.owner_references.isSome = true)
    (hl : ∀ p ∈ pods, p.labels.isSome = true) :
    ∃ g, resolve w pods services rss = .ok g ∧
      (∀ s, s ∈ g.services ↔
        s ∈ services ∧ ∃ sel, s.selector = some sel ∧ sel ≠ [] ∧
          ∃ p ∈ g.pods, ∀ kv ∈ sel, kv ∈ p.labels.getD []) ∧
      (∀ s ∈ g.services, s.selector ≠ none ∧ s.selector ≠ some []) := by
  obtain ⟨ors, ops, _, heq⟩ := resolve_ok_structure w pods services rss hrs hp hl
  refine ⟨_, heq, ?_, ?_⟩
  · intro s
    simp [List.mem_filter, svcKeepB_iff]
  · intro s hmem
    rw [List.mem_filter] at hmem
    obtain ⟨sel, hsel, hne, -⟩ := (svcKeepB_iff ops s).mp hmem.2
    constructor
    · simp [hsel]
    · intro hcon
      rw [hsel] at hcon
      exact hne (Option.some_injective _ hcon)

/-- Witness for C3 at Scenarios 2 and 3 of the spec: `svcWeb` selects the
owned Pod `podA`; `svcEmptySel` (empty selector) is excluded. -/
theorem service_selection_exact_witness :
    ∃ g, resolve wDep [podA, podB] [svcWeb, svcEmptySel] [rsOwned, rsOther] = .ok g ∧
      (∀ s, s ∈ g.services ↔
        s ∈ [svcWeb, svcEmptySel] ∧ ∃ sel, s.selector = some sel ∧ sel ≠ [] ∧
          ∃ p ∈ g.pods, ∀ kv ∈ sel, kv ∈ p.labels.getD []) ∧
      (∀ s ∈ g.services, s.selector ≠ none ∧ s.selector ≠ some []) :=
  service_selection_exact wDep [podA, podB] [svcWeb, svcEmptySel] [rsOwned, rsOther]
    (by decide) (by decide) (by decide)

/-- C5 counterexample: on a Pod whose labels mapping is Python `None`, the
resolution of `fetch_resources_for_workload` raises (the comprehension at
`src/main.py:121-122` calls `.items()` on `None`) instead of treating the
labels as empty and returning a graph. -/
theorem resolve_raises_on_null_labels :
    resolve wBare [podNullLabels] [svcWeb] [] =
      .error "AttributeError: NoneType object has no attribute items" := by rfl

/-- C5 (amended): for well-formed inputs (owner lists and labels present),
`resolve` always returns a `ResolvedGraph`, and empty input lists produce
empty output sets for every workload; a Pod with null labels is NOT
tolerated (see the counterexample). -/
theorem resolve_total_on_wellformed (w : Workload) (pods : List Pod)
    (services : List Service) (rss : List ReplicaSet)
    (hrs : ∀ rs ∈ rss, rs.owner_references.isSome = true)
    (hp : ∀ p ∈ pods, p.owner_references.isSome = true)
    (hl : ∀ p ∈ pods, p.labels.isSome = true) :
    (∃ g, resolve w pods services rss = .ok g) ∧
      (∀ w2 : Workload, resolve w2 [] [] [] = .ok ⟨[], [], []⟩) := by
  constructor
  · obtain ⟨ors, ops, _, heq⟩ := resolve_ok_structure w pods services rss hrs hp hl
    exact ⟨_, heq⟩
  · intro w2
    unfold resolve
    split
    · rfl
    · simp [nonDeployPods, filterServices, exceptFilter]

/-- Witness for C5 (amended) on the Scenario-1 inputs. -/
theorem resolve_total_on_wellformed_witness :
    (∃ g, resolve wDep [podA, podB] [svcWeb] [rsOwned, rsOther] = .ok g) ∧
      (∀ w2 : Workload, resolve w2 [] [] [] = .ok ⟨[], [], []⟩) :=
  resolve_total_on_wellformed wDep [podA, podB] [svcWeb] [rsOwned, rsOther]
    (by decide) (by decide) (by decide)

/-- C8: the Resolver is a pure function — two invocations on identical
inputs return equal (hence set-equal) graphs — and it fabricates nothing:
every returned entity is one of the input entities, unmodified. -/
theorem resolve_deterministic_and_conservative (w : Workload) (pods : List Pod)
    (services : List Service) (rss : List ReplicaSet) (g : ResolvedGraph)
    (h : resolve w pods services rss = .ok g) :
    resolve w pods services rss = resolve w pods services rss ∧
      (∀ x ∈ g.replica_sets, x ∈ rss) ∧ (∀ x ∈ g.pods, x ∈ pods) ∧
      (∀ x ∈ g.services, x ∈ services) := by
  refine ⟨rfl, ?_⟩
  unfold resolve at h
  split at h
  · split at h
    · cases h
    · next ors h1 =>
      split at h
      · cases h
      · next ops h2 =>
        split at h
        · cases h
        · next svs h3 =>
          cases h
          unfold filterOwnedRS at h1
          unfold filterDeployPods at h2
          unfold filterServices at h3
          exact ⟨exceptFilter_sub _ _ _ h1, exceptFilter_sub _ _ _ h2,
            exceptFilter_sub _ _ _ h3⟩
  · split at h
    · cases h
    · next svs h3 =>
      cases h
      refine ⟨by simp, ?_, ?_⟩
      · intro x hx
        unfold nonDeployPods at hx
        split at hx <;> exact List.mem_of_mem_filter hx
      · unfold filterServices at h3
        exact exceptFilter_sub _ _ _ h3

/-- Witness for C8 on the Scenario-1 inputs and their resolved graph. -/
theorem resolve_deterministic_and_conservative_witness :
    resolve wDep [podA, podB] [svcWeb] [rsOwned, rsOther] =
        resolve wDep [podA, podB] [svcWeb] [rsOwned, rsOther] ∧
      (∀ x ∈ (ResolvedGraph.mk [rsOwned] [podA] [svcWeb]).replica_sets,
        x ∈ [rsOwned, rsOther]) ∧
      (∀ x ∈ (ResolvedGraph.mk [rsOwned] [podA] [svcWeb]).pods, x ∈ [podA, podB]) ∧
      (∀ x ∈ (ResolvedGraph.mk [rsOwned] [podA] [svcWeb]).services, x ∈ [svcWeb]) :=
  resolve_deterministic_and_conservative wDep [podA, podB] [svcWeb] [rsOwned, rsOther]
    ⟨[rsOwned], [podA], [svcWeb]⟩ (by rfl)

/-- C6 counterexample: a failing ReplicaSet list query inside
`fetch_resources_for_workload` (`src/main.py:107-108`) is not caught at the
call site — it propagates out instead of degrading to an empty list. -/
theorem replica_set_query_error_propagates :
    fetch_resources_for_workload wSts (.ok []) (.ok [])
        (.error "QueryError: replicasets") =
      .error "QueryError: replicasets" := by rfl

/-- C6 (amended): the namespace, workload, Pod and Service queries are each
caught, logged and converted to an empty list, but the ReplicaSet list call
of `fetch_resources_for_workload` is unguarded and its failure propagates
out of that function. -/
theorem query_error_handling (e : String) (w : Workload)
    (podsQ : Except String (List Pod)) (servicesQ : Except String (List Service))
    (q1 q2 : Except String (List Workload)) :
    fetch_namespaces (.error e) = [] ∧
      fetch_all_workloads (.error e) q1 q2 = [] ∧
      fetch_all_workloads q1 (.error e) q2 = [] ∧
      fetch_all_workloads q1 q2 (.error e) = [] ∧
      fetch_pods_for_workload (.error e) = [] ∧
      fetch_services_for_workload (.error e) = [] ∧
      fetch_resources_for_workload w podsQ servicesQ (.error e) = .error e := by
  refine ⟨rfl, rfl, ?_, ?_, rfl, rfl, rfl⟩
  · cases q1 <;> rfl
  · cases q1 <;> cases q2 <;> rfl

/-- C7 counterexample: a namespace holding exactly one workload, a
StatefulSet, produces no output file at all — not one file per workload. -/
theorem statefulset_produces_no_file :
    main_async_writes "ctx" [("default", [wSts])] = [] ∧ [wSts].length = 1 :=
  ⟨rfl, rfl⟩

/-- C7 (amended): `main_async` writes exactly one file per Deployment
workload — StatefulSets, DaemonSets and all other kinds produce no file —
and each path is `output_{context}/{namespace}_{workloadName}_metadata.md`. -/
theorem one_file_per_deployment (ctx : String)
    (cluster : List (String × List Workload)) :
    (main_async_writes ctx cluster).length =
      (cluster.map
        (fun nsw => (nsw.2.filter (fun w => w.kind == "V1Deployment")).length)).sum ∧
      (∀ f, f ∈ main_async_writes ctx cluster ↔
        ∃ nsw ∈ cluster, ∃ w ∈ nsw.2, w.kind = "V1Deployment" ∧
          f = "output_" ++ ctx ++ "/" ++ (nsw.1 ++ "_" ++ w.name ++ "_metadata.md")) := by
  constructor
  · simp [main_async_writes, Function.comp_def]
  · intro f
    simp only [main_async_writes, List.mem_flatMap, List.mem_map, List.mem_filter,
      beq_iff_eq]
    constructor
    · rintro ⟨nsw, hns, w, ⟨hw, hkind⟩, rfl⟩
      exact ⟨nsw, hns, w, hw, hkind, rfl⟩
    · rintro ⟨nsw, hns, w, hw, hkind, rfl⟩
      exact ⟨nsw, hns, w, ⟨hw, hkind⟩, rfl⟩

lemma suffix_or_suffix_of_append_eq (l1 l2 s1 s2 : List Char)
    (h : l1 ++ s1 = l2 ++ s2) : s1 <:+ s2 ∨ s2 <:+ s1 := by
  have hs1 : s1 <:+ l2 ++ s2 := h ▸ List.suffix_append l1 s1
  exact List.suffix_or_suffix_of_suffix hs1 (List.suffix_append l2 s2)

lemma node_id_ne_of_kind_tags (k1 k2 n1 n2 : String)
    (hne1 : ¬ (("_" ++ pyLower k1).data <:+ ("_" ++ pyLower k2).data))
    (hne2 : ¬ (("_" ++ pyLower k2).data <:+ ("_" ++ pyLower k1).data)) :
    node_id k1 n1 ≠ node_id k2 n2 := by
  intro heq
  have hdata : n1.data ++ ("_" ++ pyLower k1).data =
      n2.data ++ ("_" ++ pyLower k2).data := by
    have h := congrArg String.data heq
    simpa [node_id, String.data_append] using h
  rcases suffix_or_suffix_of_append_eq _ _ _ _ hdata with hs | hs
  · exact hne1 hs
  · exact hne2 hs

lemma node_id_inj_same_kind (k n1 n2 : String) (h : node_id k n1 = node_id k n2) :
    n1 = n2 := by
  have hdata : n1.data ++ ("_" ++ pyLower k).data =
      n2.data ++ ("_" ++ pyLower k).data := by
    have h2 := congrArg String.data h
    simpa [node_id, String.data_append] using h2
  exact String.ext (List.append_cancel_right hdata)

/-- C9: Mermaid node identifiers are a function of the `(kind, name)` pair
(`f"{name}_{kind.lower()}"`), and for kinds drawn from the set the program
ever renders, distinct `(kind, name)` pairs get distinct identifiers. -/
theorem node_identifier_injective (k1 k2 n1 n2 : String)
    (h1 : k1 ∈ renderedKinds) (h2 : k2 ∈ renderedKinds)
    (hne : (k1, n1) ≠ (k2, n2)) :
    node_id k1 n1 ≠ node_id k2 n2 := by
  fin_cases h1 <;> fin_cases h2 <;>
    first
      | exact fun heq => hne (by rw [node_id_inj_same_kind _ _ _ heq])
      | exact node_id_ne_of_kind_tags _ _ _ _ (by decide) (by decide)

/-- Witness for C9: a Pod and a Service sharing the resource name `x`
still get different node identifiers. -/
theorem node_identifier_injective_witness :
    node_id "Pod" "x" ≠ node_id "Service" "x" :=
  node_identifier_injective "Pod" "Service" "x" "x" (by decide) (by decide) (by decide)

lemma edge_guard_iff_svcKeepB (s : Service) (p : Pod) :
    service_pod_edge_guard s p = .ok true ↔ svcKeepB [p] s = true := by
  cases hs : s.selector with
  | none => simp [service_pod_edge_guard, svcKeepB, hs]
  | some sel =>
    cases hsel : sel.isEmpty with
    | true => simp [service_pod_edge_guard, svcKeepB, hs, hsel]
    | false =>
      cases hl : p.labels with
      | none =>
        cases sel with
        | nil => simp at hsel
        | cons kv rest =>
          simp [service_pod_edge_guard, podMatchesSelector, svcKeepB, hs, hsel, hl,
            selMatches]
      | some lbls =>
        simp [service_pod_edge_guard, podMatchesSelector, svcKeepB, hs, hsel, hl,
          selMatches]

lemma service_pod_edge_guard_total (s : Service) (p : Pod)
    (h : p.labels.isSome = true) : ∃ b, service_pod_edge_guard s p = .ok b := by
  cases hs : s.selector with
  | none => exact ⟨false, by simp [service_pod_edge_guard, hs]⟩
  | some sel =>
    cases hsel : sel.isEmpty with
    | true => exact ⟨false, by simp [service_pod_edge_guard, hs, hsel]⟩
    | false =>
      cases hl : p.labels with
      | none => simp [hl] at h
      | some lbls =>
        exact ⟨sel.all (fun kv => decide (kv ∈ lbls)),
          by simp [service_pod_edge_guard, podMatchesSelector, hs, hsel, hl]⟩

lemma service_links_total (s : Service) (pods : List Pod)
    (hl : ∀ p ∈ pods, p.labels.isSome = true) :
    ∃ l, service_links s pods = .ok l ∧
      ∀ p ∈ pods, service_pod_edge_guard s p = .ok true →
        generate_link "Service" s.name "Pod" p.name ∈ l := by
  induction pods with
  | nil => exact ⟨[], rfl, by simp⟩
  | cons p rest ih =>
    obtain ⟨ltail, htail, hmem⟩ := ih (fun x hx => hl x (List.mem_cons_of_mem p hx))
    obtain ⟨b, hb⟩ := service_pod_edge_guard_total s p (hl p (List.mem_cons_self p rest))
    cases b with
    | true =>
      refine ⟨generate_link "Service" s.name "Pod" p.name :: ltail, ?_, ?_⟩
      · simp [service_links, hb, htail]
      · intro q hq hgq
        rcases List.mem_cons.mp hq with rfl | hq2
        · exact List.mem_cons_self _ _
        · exact List.mem_cons_of_mem _ (hmem q hq2 hgq)
    | false =>
      refine ⟨ltail, ?_, ?_⟩
      · simp [service_links, hb, htail]
      · intro q hq hgq
        rcases List.mem_cons.mp hq with rfl | hq2
        · rw [hb] at hgq
          simp at hgq
        · exact hmem q hq2 hgq

lemma services_blocks_total (pods : List Pod) (services : List Service)
    (hl : ∀ p ∈ pods, p.labels.isSome = true) :
    ∃ L, services_blocks pods services = .ok L ∧
      ∀ s ∈ services, ∀ p ∈ pods, service_pod_edge_guard s p = .ok true →
        generate_link "Service" s.name "Pod" p.name ∈ L := by
  induction services with
  | nil => exact ⟨[], rfl, by simp⟩
  | cons s rest ih =>
    obtain ⟨Ltail, htail, hmemtail⟩ := ih
    obtain ⟨l, hlinks, hmeml⟩ := service_links_total s pods hl
    refine ⟨generate_node "Service" s.name :: (l ++ Ltail), ?_, ?_⟩
    · simp [services_blocks, hlinks, htail]
    · intro t ht p hp hg
      rcases List.mem_cons.mp ht with rfl | ht2
      · exact List.mem_cons_of_mem _ (List.mem_append_left _ (hmeml p hp hg))
      · exact List.mem_cons_of_mem _ (List.mem_append_right _ (hmemtail t ht2 p hp hg))

lemma generate_markdown_lines_total (w : Workload) (pods : List Pod)
    (services : List Service) (hl : ∀ p ∈ pods, p.labels.isSome = true) :
    ∃ lines, generate_markdown_lines w pods services = .ok lines ∧
      ∀ s ∈ services, ∀ p ∈ pods, service_pod_edge_guard s p = .ok true →
        generate_link "Service" s.name "Pod" p.name ∈ lines := by
  obtain ⟨L, hL, hmem⟩ := services_blocks_total pods services hl
  refine ⟨["graph TD", generate_node w.kind w.name] ++
      pods.flatMap (fun p =>
        [generate_node "Pod" p.name, generate_link w.kind w.name "Pod" p.name]) ++ L,
    ?_, ?_⟩
  · simp [generate_markdown_lines, hL]
  · intro s hs p hp hg
    exact List.mem_append_right _ (hmem s hs p hp hg)

/-- C10: the Service→Pod edge guard of the renderer (`src/main.py:215-216`) is
exactly the per-Pod selection predicate of the resolver (`src/main.py:121-122`),
and consequently every Service of `selectingServices` receives at least one
outgoing edge to some rendered owned Pod in the `generate_markdown` output. -/
theorem renderer_resolver_agreement (w : Workload) (pods : List Pod)
    (services : List Service) (rss : List ReplicaSet) (g : ResolvedGraph)
    (hrs : ∀ rs ∈ rss, rs.owner_references.isSome = true)
    (hp : ∀ p ∈ pods, p.owner_references.isSome = true)
    (hl : ∀ p ∈ pods, p.labels.isSome = true)
    (h : resolve w pods services rss = .ok g) :
    (∀ s p2, service_pod_edge_guard s p2 = .ok true ↔ svcKeepB [p2] s = true) ∧
      ∃ lines, generate_markdown_lines w g.pods g.services = .ok lines ∧
        ∀ s ∈ g.services, ∃ p2 ∈ g.pods,
          generate_link "Service" s.name "Pod" p2.name ∈ lines := by
  refine ⟨fun s p2 => edge_guard_iff_svcKeepB s p2, ?_⟩
  obtain ⟨ors, ops, hsub, heq⟩ := resolve_ok_structure w pods services rss hrs hp hl
  obtain rfl := Except.ok.inj (heq.symm.trans h)
  have hlops : ∀ p2 ∈ ops, p2.labels.isSome = true :=
    fun p2 hp2 => hl p2 (hsub p2 hp2)
  obtain ⟨lines, hlines, hmem⟩ :=
    generate_markdown_lines_total w ops (services.filter (svcKeepB ops)) hlops
  refine ⟨lines, hlines, ?_⟩
  intro s hs
  obtain ⟨sel, hsel, hne, p2, hpin, hkv⟩ :=
    (svcKeepB_iff ops s).mp (List.mem_filter.mp hs).2
  have hguard : service_pod_edge_guard s p2 = .ok true := by
    rw [edge_guard_iff_svcKeepB, svcKeepB_iff]
    exact ⟨sel, hsel, hne, p2, List.mem_cons_self p2 [], hkv⟩
  exact ⟨p2, hpin, hmem s hs p2 hpin hguard⟩

/-- Witness for C10 on the Scenario-1 inputs: `svcWeb` gets an edge to the
rendered owned Pod `podA`. -/
theorem renderer_resolver_agreement_witness :
    (∀ s p2, service_pod_edge_guard s p2 = .ok true ↔ svcKeepB [p2] s = true) ∧
      ∃ lines,
        generate_markdown_lines wDep
            (ResolvedGraph.mk [rsOwned] [podA] [svcWeb]).pods
            (ResolvedGraph.mk [rsOwned] [podA] [svcWeb]).services = .ok lines ∧
        ∀ s ∈ (ResolvedGraph.mk [rsOwned] [podA] [svcWeb]).services,
          ∃ p2 ∈ (ResolvedGraph.mk [rsOwned] [podA] [svcWeb]).pods,
            generate_link "Service" s.name "Pod" p2.name ∈ lines :=
  renderer_resolver_agreement wDep [podA, podB] [svcWeb, svcEmptySel]
    [rsOwned, rsOther] ⟨[rsOwned], [podA], [svcWeb]⟩
    (by decide) (by decide) (by decide) (by rfl)

-- Regression examples on the Scenario inputs of the spec.
example :
    resolve ⟨"V1Deployment", "d", "D1", "ns"⟩
      [⟨"p1", "P1", some [], some [⟨"R1"⟩]⟩, ⟨"p2", "P2", some [], some [⟨"R2"⟩]⟩]
      []
      [⟨"r1", "R1", some [⟨"D1"⟩]⟩, ⟨"r2", "R2", some [⟨"other"⟩]⟩] =
    .ok ⟨[⟨"r1", "R1", some [⟨"D1"⟩]⟩], [⟨"p1", "P1", some [], some [⟨"R1"⟩]⟩], []⟩ := by
  rfl

example :
    (resolve ⟨"V1Pod", "p", "P1", "ns"⟩
      [⟨"p1", "P1", none, none⟩]
      [⟨"s1", some [("a", "b")]⟩]
      []).isOk = false := by
  rfl
